import Mathlib

/-!
Shallow embedding of the storage layer of the LMS backend
(backend-svc/storage/db_storage.go). The MySQL database is modelled as an
explicit state (DBState); each storage method of DBStorage becomes a Lean
function from state to result (and to a new state, for writes). SQL
semantics are made explicit: QueryRow on a keyed lookup is List.find?,
UPDATE ... WHERE id = ? rewrites every matching row, ORDER BY is a sort,
a NULLable column is an Option, and Scan of a NULL column into a
non-nullable Go string / time.Time destination fails (database/sql refuses
that conversion). Timestamps are seconds as Nat; time.Now() becomes an
explicit now parameter; time.Time.After is strict <. bcrypt hashing is an
abstract parameter, and per-statement I/O outcomes of the multi-statement
profile update are injected as parameters so that its error paths are
expressible. Field types of the models package (not part of the storage
file) follow the persisted row shapes of the spec, section 6.
-/

namespace LMS

/-- Error values returned by the storage layer. -/
inductive Err where
  | courseNotFound
  | taskNotFound
  | conflict
  | scanNull
  | execFailed
  | bcryptFailed
  | commitFailed
  deriving Repr, DecidableEq

/-- A row of the users table: models.User together with the two nullable
OTP columns. -/
structure User where
  id : Nat
  username : String
  passwordHash : String
  email : String
  fullName : String
  totpSecret : String
  is2faEnabled : Bool
  isAdmin : Bool
  isActive : Bool
  lastLogin : Option Nat
  otpCode : Option String
  otpExpiresAt : Option Nat
  deriving Repr, DecidableEq

/-- A row of the tasks table (models.Task). -/
structure Task where
  id : Nat
  courseId : Nat
  title : String
  description : String
  difficulty : String
  order : Int
  deriving Repr, DecidableEq

/-- A row of the courses table. -/
structure CourseRow where
  id : Nat
  vulnerabilityType : String
  description : String
  deriving Repr, DecidableEq

/-- The aggregate returned by GetCourseByID (models.Course): course
columns, the derived task count, and the task list. -/
structure Course where
  id : Nat
  vulnerabilityType : String
  tasksCount : Nat
  description : String
  tasks : List Task
  deriving Repr, DecidableEq

/-- models.UpdateProfileRequest: the partial profile update; an empty
string means the field is absent from the request. -/
structure UpdateProfileRequest where
  email : String
  fullName : String
  password : String
  deriving Repr, DecidableEq

/-- models.UserProgress: the per-user completion map built by
GetUserProgress (a Go map from task id to bool). -/
structure UserProgress where
  userID : Nat
  completed : Nat → Bool

/-- The database state: the tables touched by the storage layer, plus the
auto-increment counter of the users table. progress holds the
(user_id, task_id) rows of user_progress. -/
@[ext]
structure DBState where
  users : List User
  courses : List CourseRow
  tasks : List Task
  progress : List (Nat × Nat)
  nextUserId : Nat
  deriving Repr, DecidableEq

/-- GetUserProgress: SELECT task_id FROM user_progress WHERE user_id = ?,
collected into a map whose keys are the returned task ids. -/
def GetUserProgress (userID : Nat) (st : DBState) : UserProgress :=
  { userID := userID
    completed := fun t => st.progress.any (fun p => p.1 == userID && p.2 == t) }

/-- CompleteTask: first SELECT EXISTS(... FROM tasks WHERE id = ?), return
ErrTaskNotFound if absent; then INSERT ... ON DUPLICATE KEY UPDATE
task_id = VALUES(task_id) into user_progress, whose key is
UNIQUE(user_id, task_id): insert the row if absent, otherwise rewrite
task_id to itself (no state change). -/
def CompleteTask (userID taskID : Nat) (st : DBState) : Except Err Unit × DBState :=
  if !(st.tasks.any (fun tk => tk.id == taskID)) then
    (.error .taskNotFound, st)
  else if st.progress.any (fun p => p.1 == userID && p.2 == taskID) then
    (.ok (), st)
  else
    (.ok (), { st with progress := st.progress ++ [(userID, taskID)] })

/-- The row inserted by CreateUser: the INSERT lists username,
password_hash, email, full_name, totp_secret, is_2fa_enabled from the
candidate and the literal TRUE for is_active; id is auto-increment and
the remaining columns take their defaults (is_admin FALSE, NULLs). -/
def newUserRow (u : User) (st : DBState) : User :=
  { id := st.nextUserId
    username := u.username
    passwordHash := u.passwordHash
    email := u.email
    fullName := u.fullName
    totpSecret := u.totpSecret
    is2faEnabled := u.is2faEnabled
    isAdmin := false
    isActive := true
    lastLogin := none
    otpCode := none
    otpExpiresAt := none }

/-- CreateUser: SELECT EXISTS(... WHERE username = ? OR email = ?) and
fail with the conflict error if a matching user exists; otherwise insert
the new row. -/
def CreateUser (u : User) (st : DBState) : Except Err Unit × DBState :=
  if st.users.any (fun x => x.username == u.username || x.email == u.email) then
    (.error .conflict, st)
  else
    (.ok (),
      { st with
        users := st.users ++ [newUserRow u st]
        nextUserId := st.nextUserId + 1 })

/-- GetCourseByID: QueryRow of the course (with its LEFT JOIN task count)
returns ErrCourseNotFound on sql.ErrNoRows; then the tasks of the course
are read with ORDER BY task_order. -/
def GetCourseByID (id : Nat) (st : DBState) : Except Err Course :=
  match st.courses.find? (fun c => c.id == id) with
  | none => .error .courseNotFound
  | some row =>
    .ok
      { id := row.id
        vulnerabilityType := row.vulnerabilityType
        tasksCount := (st.tasks.filter (fun t => t.courseId == id)).length
        description := row.description
        tasks := List.insertionSort (fun a b => a.order ≤ b.order)
          (st.tasks.filter (fun t => t.courseId == id)) }

/-- Row effect of UPDATE users SET otp_code = ?, otp_expires_at = ?
WHERE id = ?. -/
def saveOtpRow (now userID : Nat) (code : String) (u : User) : User :=
  if u.id == userID then
    { u with otpCode := some code, otpExpiresAt := some (now + 5 * 60) }
  else u

/-- SaveOTPCode: expiresAt is time.Now().Add(5 * time.Minute), then
UPDATE users SET otp_code = ?, otp_expires_at = ? WHERE id = ?. -/
def SaveOTPCode (now userID : Nat) (code : String) (st : DBState) :
    Except Err Unit × DBState :=
  (.ok (), { st with users := st.users.map (saveOtpRow now userID code) })

/-- VerifyOTPCode: QueryRow of otp_code, otp_expires_at WHERE id = ?.
sql.ErrNoRows yields (false, nil). The Scan destinations are a plain Go
string and time.Time, so a NULL in either column makes Scan fail and the
call returns that error. After a successful scan: empty stored code yields
false, time.Now().After(expiresAt) yields false, otherwise the result is
the constant-time byte comparison of the supplied and stored codes. -/
def VerifyOTPCode (now userID : Nat) (code : String) (st : DBState) :
    Except Err Bool :=
  match st.users.find? (fun u => u.id == userID) with
  | none => .ok false
  | some u =>
    match u.otpCode, u.otpExpiresAt with
    | some storedCode, some expiresAt =>
      if storedCode == "" then .ok false
      else if expiresAt < now then .ok false
      else .ok (code == storedCode)
    | _, _ => .error .scanNull

/-- Row effect of UPDATE users SET otp_code = NULL, otp_expires_at = NULL
WHERE id = ?. -/
def clearOtpRow (userID : Nat) (u : User) : User :=
  if u.id == userID then { u with otpCode := none, otpExpiresAt := none }
  else u

/-- ClearOTPCode: UPDATE users SET otp_code = NULL, otp_expires_at = NULL
WHERE id = ?. -/
def ClearOTPCode (userID : Nat) (st : DBState) : Except Err Unit × DBState :=
  (.ok (), { st with users := st.users.map (clearOtpRow userID) })

/-- Effect of UPDATE users SET email = ? WHERE id = ?. -/
def setUserEmail (userID : Nat) (email : String) (st : DBState) : DBState :=
  { st with
    users := st.users.map (fun u =>
      if u.id == userID then { u with email := email } else u) }

/-- Effect of UPDATE users SET full_name = ? WHERE id = ?. -/
def setUserFullName (userID : Nat) (fullName : String) (st : DBState) : DBState :=
  { st with
    users := st.users.map (fun u =>
      if u.id == userID then { u with fullName := fullName } else u) }

/-- Effect of UPDATE users SET password_hash = ? WHERE id = ?. -/
def setUserPasswordHash (userID : Nat) (passwordHash : String) (st : DBState) : DBState :=
  { st with
    users := st.users.map (fun u =>
      if u.id == userID then { u with passwordHash := passwordHash } else u) }

/-- Injected outcomes of the fallible externals inside UpdateUserProfile:
the prepare/exec of each conditional UPDATE, bcrypt.GenerateFromPassword,
and the final commit. true means the call succeeds. -/
structure ProfileOutcome where
  emailOk : Bool
  fullNameOk : Bool
  bcryptOk : Bool
  passwordOk : Bool
  commitOk : Bool
  deriving Repr, DecidableEq

/-- The transaction's pending view after the three conditional UPDATE
blocks of UpdateUserProfile have run: email, then full_name, then
password_hash, each applied only when the request field is non-empty. -/
def profilePending (hash : String → String) (userID : Nat)
    (data : UpdateProfileRequest) (st : DBState) : DBState :=
  let s1 := if data.email != "" then setUserEmail userID data.email st else st
  let s2 := if data.fullName != "" then setUserFullName userID data.fullName s1 else s1
  if data.password != "" then setUserPasswordHash userID (hash data.password) s2 else s2

/-- UpdateUserProfile: inside one transaction, conditionally UPDATE email,
full_name, and password_hash (the password is bcrypt-hashed first); each
block returns its error immediately, so a later statement never runs after
an earlier one failed, and tx.Commit() is only reached when every executed
statement succeeded. The guards below test the injected outcomes in the
source's statement order; the pending view (profilePending) becomes the
persisted state only at the final commit, so every early error return
leaves the store at st (the shadowed outer err means the deferred rollback
does not fire, but the abandoned transaction is never committed, so its
writes are discarded either way). -/
def UpdateUserProfile (hash : String → String) (oc : ProfileOutcome)
    (userID : Nat) (data : UpdateProfileRequest) (st : DBState) :
    Except Err Unit × DBState :=
  if data.email != "" && !oc.emailOk then
    (.error .execFailed, st)
  else if data.fullName != "" && !oc.fullNameOk then
    (.error .execFailed, st)
  else if data.password != "" && !oc.bcryptOk then
    (.error .bcryptFailed, st)
  else if data.password != "" && !oc.passwordOk then
    (.error .execFailed, st)
  else if !oc.commitOk then
    (.error .commitFailed, st)
  else
    (.ok (), profilePending hash userID data st)

/-- The OTP state invariant of the spec: otp_code and otp_expires_at are
either both set or both absent on every user row. -/
def otpInvariant (st : DBState) : Prop :=
  ∀ u ∈ st.users, u.otpCode.isSome = u.otpExpiresAt.isSome

/-- Well-formed users table: the primary key is unique. -/
def wfUsers (st : DBState) : Prop :=
  st.users.Pairwise (fun a b => a.id ≠ b.id)

instance (st : DBState) : Decidable (otpInvariant st) :=
  inferInstanceAs (Decidable (∀ u ∈ st.users, u.otpCode.isSome = u.otpExpiresAt.isSome))

instance (st : DBState) : Decidable (wfUsers st) := by
  unfold wfUsers
  exact List.instDecidablePairwise st.users

/-! Concrete fixtures used by witnesses and counterexamples. -/

/-- A user row as it comes out of CreateUser: both OTP columns NULL. -/
def aliceNoOtp : User :=
  { id := 1
    username := "alice"
    passwordHash := "hashA"
    email := "a@x.com"
    fullName := "Alice"
    totpSecret := ""
    is2faEnabled := false
    isAdmin := false
    isActive := true
    lastLogin := none
    otpCode := none
    otpExpiresAt := none }

/-- Alice with a pending OTP challenge issued at time 0. -/
def alicePending : User :=
  { aliceNoOtp with otpCode := some "123456", otpExpiresAt := some 300 }

/-- A task of course 3 with task_order 1. -/
def task10 : Task :=
  { id := 10, courseId := 3, title := "XSS basics", description := "d1",
    difficulty := "easy", order := 1 }

/-- A task of course 3 with task_order 2. -/
def task11 : Task :=
  { id := 11, courseId := 3, title := "XSS reflected", description := "d2",
    difficulty := "medium", order := 2 }

/-- A course row. -/
def course3 : CourseRow :=
  { id := 3, vulnerabilityType := "XSS", description := "course" }

/-- A small database: one user, one course whose tasks are stored out of
order, empty progress. -/
def baseSt : DBState :=
  { users := [aliceNoOtp]
    courses := [course3]
    tasks := [task11, task10]
    progress := []
    nextUserId := 2 }

/-- baseSt with alice's challenge pending. -/
def pendingSt : DBState :=
  { baseSt with users := [alicePending] }

/-- A registration candidate whose username and email are free in baseSt. -/
def bobCandidate : User :=
  { aliceNoOtp with username := "bob", email := "b@x.com" }

/-- The same candidate carrying isAdmin and isActive flags. -/
def bobInactiveAdmin : User :=
  { bobCandidate with isAdmin := true, isActive := false }

/-! Helper lemmas. -/

theorem find?_id_unique (l : List User) (hl : l.Pairwise (fun a b => a.id ≠ b.id))
    (userID : Nat) (u : User) :
    l.find? (fun x => x.id == userID) = some u ↔ u ∈ l ∧ u.id = userID := by
  induction l with
  | nil => simp
  | cons v l ih =>
    rcases List.pairwise_cons.mp hl with ⟨hv, hl'⟩
    rw [List.find?_cons]
    by_cases hid : (v.id == userID) = true
    · have hvid : v.id = userID := by simpa using hid
      simp only [hid]
      constructor
      · intro h
        cases Option.some.inj h
        exact ⟨List.mem_cons_self _ _, hvid⟩
      · rintro ⟨hmem, huid⟩
        rcases List.mem_cons.mp hmem with rfl | hmem'
        · rfl
        · exact absurd (by rw [hvid, huid]) (hv u hmem')
    · have hid2 : (v.id == userID) = false := by
        cases h2 : (v.id == userID) with
        | false => rfl
        | true => exact absurd h2 hid
      simp only [hid2]
      rw [ih hl']
      constructor
      · rintro ⟨hmem, huid⟩
        exact ⟨List.mem_cons_of_mem _ hmem, huid⟩
      · rintro ⟨hmem, huid⟩
        rcases List.mem_cons.mp hmem with rfl | hmem'
        · exact absurd (by simpa using huid) hid
        · exact ⟨hmem', huid⟩

/-- C9: VerifyOTPCode for a user id with no row in the users table returns
false with no error (sql.ErrNoRows is mapped to (false, nil)): a
nonexistent user is indistinguishable from a user with no pending
challenge, and no user-not-found error is signalled. -/
theorem VerifyOTPCode_missing_user (now userID : Nat) (code : String)
    (st : DBState) (h : ∀ u ∈ st.users, u.id ≠ userID) :
    VerifyOTPCode now userID code st = .ok false := by
  have hf : st.users.find? (fun u => u.id == userID) = none := by
    rw [List.find?_eq_none]
    intro u hu
    simpa using h u hu
  simp [VerifyOTPCode, hf]

/-- Witness for C9: user 42 does not exist in baseSt. -/
theorem VerifyOTPCode_missing_user_witness :
    VerifyOTPCode 0 42 "123456" baseSt = .ok false :=
  VerifyOTPCode_missing_user 0 42 "123456" baseSt (by decide)

/-- C8: the OTP fields move together: SaveOTPCode stores the code together
with expiry = issue time + 5 minutes on the addressed row, ClearOTPCode
NULLs both fields together; both preserve the both-set-or-both-absent
invariant, both always succeed (so clearing is safe with or without a
pending challenge), and ClearOTPCode is idempotent. -/
theorem otp_state_machine (now userID : Nat) (code : String) (st : DBState) :
    (otpInvariant st → otpInvariant (SaveOTPCode now userID code st).2)
    ∧ (otpInvariant st → otpInvariant (ClearOTPCode userID st).2)
    ∧ (∀ u ∈ (SaveOTPCode now userID code st).2.users,
        u.id = userID → u.otpCode = some code ∧ u.otpExpiresAt = some (now + 5 * 60))
    ∧ (∀ u ∈ (ClearOTPCode userID st).2.users,
        u.id = userID → u.otpCode = none ∧ u.otpExpiresAt = none)
    ∧ (SaveOTPCode now userID code st).1 = .ok ()
    ∧ (ClearOTPCode userID st).1 = .ok ()
    ∧ ClearOTPCode userID (ClearOTPCode userID st).2 = ClearOTPCode userID st := by
  refine ⟨?_, ?_, ?_, ?_, rfl, rfl, ?_⟩
  · intro hinv u hu
    simp only [SaveOTPCode] at hu
    rcases List.mem_map.mp hu with ⟨v, hv, rfl⟩
    by_cases h : (v.id == userID) = true <;> simp [saveOtpRow, h]
    exact hinv v hv
  · intro hinv u hu
    simp only [ClearOTPCode] at hu
    rcases List.mem_map.mp hu with ⟨v, hv, rfl⟩
    by_cases h : (v.id == userID) = true <;> simp [clearOtpRow, h]
    exact hinv v hv
  · intro u hu hid
    simp only [SaveOTPCode] at hu
    rcases List.mem_map.mp hu with ⟨v, hv, rfl⟩
    by_cases h : (v.id == userID) = true
    · simp [saveOtpRow, h]
    · have hid' : v.id = userID := by simpa [saveOtpRow, h] using hid
      exact absurd (by simp [hid']) h
  · intro u hu hid
    simp only [ClearOTPCode] at hu
    rcases List.mem_map.mp hu with ⟨v, hv, rfl⟩
    by_cases h : (v.id == userID) = true
    · simp [clearOtpRow, h]
    · have hid' : v.id = userID := by simpa [clearOtpRow, h] using hid
      exact absurd (by simp [hid']) h
  · have husers : ((ClearOTPCode userID (ClearOTPCode userID st).2).2).users
        = ((ClearOTPCode userID st).2).users := by
      simp only [ClearOTPCode, List.map_map]
      apply List.map_congr_left
      intro v _
      show clearOtpRow userID (clearOtpRow userID v) = clearOtpRow userID v
      by_cases h : (v.id == userID) = true <;> simp [clearOtpRow, h]
    have hstate : (ClearOTPCode userID (ClearOTPCode userID st).2).2
        = (ClearOTPCode userID st).2 :=
      DBState.ext husers rfl rfl rfl rfl
    exact congrArg (Prod.mk (Except.ok ())) hstate

/-- Witness for C8: the invariant conjuncts applied to baseSt. -/
theorem otp_state_machine_witness :
    otpInvariant (SaveOTPCode 0 1 "111111" baseSt).2
    ∧ otpInvariant (ClearOTPCode 1 baseSt).2 := by
  have h := otp_state_machine 0 1 "111111" baseSt
  exact ⟨h.1 (by decide), h.2.1 (by decide)⟩

/-- C7: CompleteTask fails with ErrTaskNotFound and leaves the whole state
(in particular the user's progress) unchanged when the task id does not
exist; when the task exists the call succeeds and the user's progress
afterwards maps the task to true. -/
theorem CompleteTask_task_not_found (userID taskID : Nat) (st : DBState) :
    ((∀ tk ∈ st.tasks, tk.id ≠ taskID) →
      CompleteTask userID taskID st = (.error .taskNotFound, st))
    ∧ ((∃ tk ∈ st.tasks, tk.id = taskID) →
      (CompleteTask userID taskID st).1 = .ok ()
      ∧ (GetUserProgress userID (CompleteTask userID taskID st).2).completed taskID = true) := by
  constructor
  · intro h
    have ha : (st.tasks.any (fun tk => tk.id == taskID)) = false := by
      rw [List.any_eq_false]
      intro tk htk
      simpa using h tk htk
    simp [CompleteTask, ha]
  · rintro ⟨tk, htk, hid⟩
    have ha : (st.tasks.any (fun tk => tk.id == taskID)) = true := by
      rw [List.any_eq_true]
      exact ⟨tk, htk, by simp [hid]⟩
    by_cases hp : (st.progress.any (fun p => p.1 == userID && p.2 == taskID)) = true
    · constructor
      · simp [CompleteTask, ha, hp]
      · simp [CompleteTask, ha, hp, GetUserProgress]
    · have hp' : (st.progress.any (fun p => p.1 == userID && p.2 == taskID)) = false := by
        cases h2 : (st.progress.any (fun p => p.1 == userID && p.2 == taskID)) with
        | false => rfl
        | true => exact absurd h2 hp
      constructor
      · simp [CompleteTask, ha, hp']
      · simp [CompleteTask, ha, hp', GetUserProgress]

/-- Witness for C7: task 9999 does not exist in baseSt, task 10 does. -/
theorem CompleteTask_task_not_found_witness :
    CompleteTask 1 9999 baseSt = (.error .taskNotFound, baseSt)
    ∧ (GetUserProgress 1 (CompleteTask 1 10 baseSt).2).completed 10 = true := by
  refine ⟨(CompleteTask_task_not_found 1 9999 baseSt).1 (by decide), ?_⟩
  exact ((CompleteTask_task_not_found 1 10 baseSt).2 ⟨task10, by decide, rfl⟩).2

theorem progress_row_pred_iff (userID taskID : Nat) (p : Nat × Nat) :
    ((p.1 == userID && p.2 == taskID) = true) ↔ p = (userID, taskID) := by
  rcases p with ⟨a, b⟩
  simp [Prod.ext_iff]

theorem countP_progress_row_eq_one (userID taskID : Nat) :
    ∀ (l : List (Nat × Nat)), l.Nodup → (userID, taskID) ∈ l →
      l.countP (fun p => p.1 == userID && p.2 == taskID) = 1 := by
  intro l
  induction l with
  | nil => intro _ hmem; cases hmem
  | cons b l ih =>
    intro hnd hmem
    rcases List.nodup_cons.mp hnd with ⟨hb, hl⟩
    rw [List.countP_cons]
    rcases List.mem_cons.mp hmem with heq | hmem'
    · have hpb : (b.1 == userID && b.2 == taskID) = true :=
        (progress_row_pred_iff userID taskID b).mpr heq.symm
      have hzero : l.countP (fun p => p.1 == userID && p.2 == taskID) = 0 := by
        rw [List.countP_eq_zero]
        intro a ha hpa
        rw [(progress_row_pred_iff userID taskID a).mp hpa, heq] at ha
        exact hb ha
      simp [hpb, hzero]
    · have hpb : (b.1 == userID && b.2 == taskID) = false := by
        cases h2 : (b.1 == userID && b.2 == taskID) with
        | false => rfl
        | true =>
          rw [(progress_row_pred_iff userID taskID b).mp h2] at hb
          exact absurd hmem' hb
      simp [hpb, ih hl hmem']

/-- C4: CompleteTask is an idempotent upsert: for an existing task and a
duplicate-free progress table, two identical calls both succeed, the
second call does not change the state left by the first, the task is
reported completed, and the progress table holds exactly one row for the
(user, task) pair. -/
theorem CompleteTask_idempotent (userID taskID : Nat) (st : DBState)
    (hex : ∃ tk ∈ st.tasks, tk.id = taskID) (hnd : st.progress.Nodup) :
    (CompleteTask userID taskID st).1 = .ok ()
    ∧ (CompleteTask userID taskID (CompleteTask userID taskID st).2).1 = .ok ()
    ∧ (CompleteTask userID taskID (CompleteTask userID taskID st).2).2
        = (CompleteTask userID taskID st).2
    ∧ (GetUserProgress userID (CompleteTask userID taskID st).2).completed taskID = true
    ∧ (CompleteTask userID taskID st).2.progress.countP
        (fun p => p.1 == userID && p.2 == taskID) = 1 := by
  obtain ⟨tk, htk, hid⟩ := hex
  have ha : (st.tasks.any (fun x => x.id == taskID)) = true := by
    rw [List.any_eq_true]
    exact ⟨tk, htk, by simp [hid]⟩
  by_cases hp : (st.progress.any (fun p => p.1 == userID && p.2 == taskID)) = true
  · have hmem : (userID, taskID) ∈ st.progress := by
      rcases List.any_eq_true.mp hp with ⟨p, hpmem, hpeq⟩
      rwa [(progress_row_pred_iff userID taskID p).mp hpeq] at hpmem
    refine ⟨by simp [CompleteTask, ha, hp], ?_, ?_, ?_, ?_⟩
    · simp [CompleteTask, ha, hp]
    · simp [CompleteTask, ha, hp]
    · simp [CompleteTask, ha, hp, GetUserProgress]
    · simp only [CompleteTask, ha, hp]
      simpa using countP_progress_row_eq_one userID taskID st.progress hnd hmem
  · have hp' : (st.progress.any (fun p => p.1 == userID && p.2 == taskID)) = false := by
      cases h2 : (st.progress.any (fun p => p.1 == userID && p.2 == taskID)) with
      | false => rfl
      | true => exact absurd h2 hp
    have hnotmem : (userID, taskID) ∉ st.progress := by
      intro hmem
      rw [List.any_eq_false] at hp'
      exact hp' _ hmem (by simp)
    have ha2 : ((st.progress ++ [(userID, taskID)]).any
        (fun p => p.1 == userID && p.2 == taskID)) = true := by
      rw [List.any_eq_true]
      exact ⟨(userID, taskID), by simp, by simp⟩
    have hnd2 : (st.progress ++ [(userID, taskID)]).Nodup := by
      rw [List.nodup_append]
      exact ⟨hnd, List.nodup_singleton _, by simpa using hnotmem⟩
    refine ⟨by simp [CompleteTask, ha, hp'], ?_, ?_, ?_, ?_⟩
    · simp [CompleteTask, ha, hp', ha2]
    · simp [CompleteTask, ha, hp', ha2]
    · simp [CompleteTask, ha, hp', GetUserProgress]
    · simp only [CompleteTask, ha, hp']
      simpa using countP_progress_row_eq_one userID taskID
        (st.progress ++ [(userID, taskID)]) hnd2 (by simp)

/-- Witness for C4: completing the existing task 10 twice from baseSt. -/
theorem CompleteTask_idempotent_witness :
    (CompleteTask 1 10 (CompleteTask 1 10 baseSt).2).2 = (CompleteTask 1 10 baseSt).2
    ∧ (CompleteTask 1 10 baseSt).2.progress.countP
        (fun p => p.1 == 1 && p.2 == 10) = 1 := by
  have h := CompleteTask_idempotent 1 10 baseSt ⟨task10, by decide, rfl⟩ (by decide)
  exact ⟨h.2.2.1, h.2.2.2.2⟩

/-- C6: CreateUser fails with the conflict error and inserts nothing when
some user already has the candidate's username or email; otherwise it
succeeds and the users table becomes exactly the old table plus the new
row. -/
theorem CreateUser_conflict (u : User) (st : DBState) :
    ((∃ x ∈ st.users, x.username = u.username ∨ x.email = u.email) →
      CreateUser u st = (.error .conflict, st))
    ∧ ((∀ x ∈ st.users, x.username ≠ u.username ∧ x.email ≠ u.email) →
      (CreateUser u st).1 = .ok ()
      ∧ (CreateUser u st).2.users = st.users ++ [newUserRow u st]) := by
  constructor
  · rintro ⟨x, hx, hor⟩
    have hc : (st.users.any (fun y => y.username == u.username || y.email == u.email)) = true := by
      rw [List.any_eq_true]
      refine ⟨x, hx, ?_⟩
      rcases hor with h | h <;> simp [h]
    simp [CreateUser, hc]
  · intro h
    have hc : (st.users.any (fun y => y.username == u.username || y.email == u.email)) = false := by
      rw [List.any_eq_false]
      intro x hx
      have := h x hx
      simp [this.1, this.2]
    simp [CreateUser, hc]

/-- Witness for C6: registering alice again conflicts; a fresh username
and email succeed. -/
theorem CreateUser_conflict_witness :
    CreateUser { aliceNoOtp with email := "b@x.com" } baseSt = (.error .conflict, baseSt)
    ∧ (CreateUser { aliceNoOtp with username := "bob", email := "b@x.com" } baseSt).1 = .ok () := by
  constructor
  · exact (CreateUser_conflict { aliceNoOtp with email := "b@x.com" } baseSt).1
      ⟨aliceNoOtp, by decide, by decide⟩
  · exact ((CreateUser_conflict { aliceNoOtp with username := "bob", email := "b@x.com" }
      baseSt).2 (by decide)).1

/-- C10: the candidate's isAdmin and isActive fields are never consulted:
CreateUser behaves identically for candidates differing only in those
fields, and a successful insert always stores the new row with isActive
true. -/
theorem CreateUser_is_active (u : User) (a b : Bool) (st : DBState) :
    CreateUser { u with isAdmin := a, isActive := b } st = CreateUser u st
    ∧ ((∀ x ∈ st.users, x.username ≠ u.username ∧ x.email ≠ u.email) →
      ∃ v, (CreateUser u st).2.users = st.users ++ [v] ∧ v.isActive = true) := by
  constructor
  · simp [CreateUser, newUserRow]
  · intro h
    have hc : (st.users.any (fun y => y.username == u.username || y.email == u.email)) = false := by
      rw [List.any_eq_false]
      intro x hx
      have := h x hx
      simp [this.1, this.2]
    exact ⟨newUserRow u st, by simp [CreateUser, hc], rfl⟩

/-- Witness for C10: an inactive admin candidate is stored as active. -/
theorem CreateUser_is_active_witness :
    CreateUser bobInactiveAdmin baseSt = CreateUser bobCandidate baseSt
    ∧ ∃ v, (CreateUser bobCandidate baseSt).2.users = baseSt.users ++ [v]
        ∧ v.isActive = true := by
  have h := CreateUser_is_active bobCandidate true false baseSt
  exact ⟨h.1, h.2 (by decide)⟩

theorem bool_not_true {b : Bool} (h : ¬ b = true) : b = false := by
  cases b
  · rfl
  · exact absurd rfl h

theorem setUserFullName_map_email (userID : Nat) (n : String) (st : DBState) :
    (setUserFullName userID n st).users.map (fun u => u.email)
      = st.users.map (fun u => u.email) := by
  simp only [setUserFullName, List.map_map]
  apply List.map_congr_left
  intro u _
  by_cases h : (u.id == userID) = true <;> simp [Function.comp, h]

theorem setUserFullName_map_passwordHash (userID : Nat) (n : String) (st : DBState) :
    (setUserFullName userID n st).users.map (fun u => u.passwordHash)
      = st.users.map (fun u => u.passwordHash) := by
  simp only [setUserFullName, List.map_map]
  apply List.map_congr_left
  intro u _
  by_cases h : (u.id == userID) = true <;> simp [Function.comp, h]

/-- C2: UpdateUserProfile is all-or-nothing: whenever the call returns an
error (a failing field statement, a bcrypt failure, or a failing commit),
the persisted state is exactly the state before the call, so none of the
selected fields - email, full name, password hash - is changed. -/
theorem UpdateUserProfile_atomic (hash : String → String) (oc : ProfileOutcome)
    (userID : Nat) (data : UpdateProfileRequest) (st : DBState) (e : Err)
    (h : (UpdateUserProfile hash oc userID data st).1 = .error e) :
    (UpdateUserProfile hash oc userID data st).2 = st := by
  unfold UpdateUserProfile at h ⊢
  split_ifs at h ⊢ <;> simp_all

/-- The identity stand-in for bcrypt hashing, used by witnesses. -/
def idHash : String → String := fun s => s

/-- Every injected outcome succeeds. -/
def allOk : ProfileOutcome :=
  { emailOk := true, fullNameOk := true, bcryptOk := true,
    passwordOk := true, commitOk := true }

/-- The full-name UPDATE statement fails. -/
def fullNameFails : ProfileOutcome :=
  { allOk with fullNameOk := false }

/-- The request of the spec's frame scenario: only fullName present. -/
def fullNameOnlyReq : UpdateProfileRequest :=
  { email := "", fullName := "new", password := "" }

/-- Witness for C2: a failing full-name statement leaves baseSt intact. -/
theorem UpdateUserProfile_atomic_witness :
    (UpdateUserProfile idHash fullNameFails 1 fullNameOnlyReq baseSt).2 = baseSt :=
  UpdateUserProfile_atomic idHash fullNameFails 1 fullNameOnlyReq baseSt .execFailed rfl

theorem setUserEmail_map_fullName (userID : Nat) (e : String) (st : DBState) :
    (setUserEmail userID e st).users.map (fun u => u.fullName)
      = st.users.map (fun u => u.fullName) := by
  simp only [setUserEmail, List.map_map]
  apply List.map_congr_left
  intro u _
  by_cases h : (u.id == userID) = true <;> simp [Function.comp, h]

theorem setUserEmail_map_passwordHash (userID : Nat) (e : String) (st : DBState) :
    (setUserEmail userID e st).users.map (fun u => u.passwordHash)
      = st.users.map (fun u => u.passwordHash) := by
  simp only [setUserEmail, List.map_map]
  apply List.map_congr_left
  intro u _
  by_cases h : (u.id == userID) = true <;> simp [Function.comp, h]

theorem setUserPasswordHash_map_email (userID : Nat) (pw : String) (st : DBState) :
    (setUserPasswordHash userID pw st).users.map (fun u => u.email)
      = st.users.map (fun u => u.email) := by
  simp only [setUserPasswordHash, List.map_map]
  apply List.map_congr_left
  intro u _
  by_cases h : (u.id == userID) = true <;> simp [Function.comp, h]

theorem setUserPasswordHash_map_fullName (userID : Nat) (pw : String) (st : DBState) :
    (setUserPasswordHash userID pw st).users.map (fun u => u.fullName)
      = st.users.map (fun u => u.fullName) := by
  simp only [setUserPasswordHash, List.map_map]
  apply List.map_congr_left
  intro u _
  by_cases h : (u.id == userID) = true <;> simp [Function.comp, h]

theorem UpdateUserProfile_result_cases (hash : String → String) (oc : ProfileOutcome)
    (userID : Nat) (data : UpdateProfileRequest) (st : DBState) :
    (UpdateUserProfile hash oc userID data st).2 = st
    ∨ (UpdateUserProfile hash oc userID data st).2
        = profilePending hash userID data st := by
  unfold UpdateUserProfile
  split_ifs <;> simp

theorem UpdateUserProfile_ok_state (hash : String → String) (oc : ProfileOutcome)
    (userID : Nat) (data : UpdateProfileRequest) (st : DBState)
    (hok : (UpdateUserProfile hash oc userID data st).1 = .ok ()) :
    (UpdateUserProfile hash oc userID data st).2
      = profilePending hash userID data st := by
  unfold UpdateUserProfile at hok ⊢
  split_ifs at hok ⊢ <;> simp_all

theorem profilePending_map_email (hash : String → String) (userID : Nat)
    (data : UpdateProfileRequest) (st : DBState) (hemail : data.email = "") :
    (profilePending hash userID data st).users.map (fun u => u.email)
      = st.users.map (fun u => u.email) := by
  have he : (data.email != "") = false := by simp [hemail]
  unfold profilePending
  cases hf : (data.fullName != "") <;> cases hp : (data.password != "") <;>
    simp [he, hf, hp, setUserFullName_map_email, setUserPasswordHash_map_email]

theorem profilePending_map_fullName (hash : String → String) (userID : Nat)
    (data : UpdateProfileRequest) (st : DBState) (hfn : data.fullName = "") :
    (profilePending hash userID data st).users.map (fun u => u.fullName)
      = st.users.map (fun u => u.fullName) := by
  have hf : (data.fullName != "") = false := by simp [hfn]
  unfold profilePending
  cases he : (data.email != "") <;> cases hp : (data.password != "") <;>
    simp [he, hf, hp, setUserEmail_map_fullName, setUserPasswordHash_map_fullName]

theorem profilePending_map_passwordHash (hash : String → String) (userID : Nat)
    (data : UpdateProfileRequest) (st : DBState) (hpass : data.password = "") :
    (profilePending hash userID data st).users.map (fun u => u.passwordHash)
      = st.users.map (fun u => u.passwordHash) := by
  have hp : (data.password != "") = false := by simp [hpass]
  unfold profilePending
  cases he : (data.email != "") <;> cases hf : (data.fullName != "") <;>
    simp [he, hf, hp, setUserEmail_map_passwordHash, setUserFullName_map_passwordHash]

/-- C5: a field absent from the request is never applied, for every
request: an empty email, full name, or password field leaves respectively
every user's email, full name, or password hash unchanged, whatever the
other fields and statement outcomes are; and in the spec's scenario
(empty email and password) the successful final state is exactly the
original with only the addressed user's full name rewritten (when a new
full name is supplied, nothing at all otherwise). -/
theorem UpdateUserProfile_frame (hash : String → String) (oc : ProfileOutcome)
    (userID : Nat) (data : UpdateProfileRequest) (st : DBState) :
    (data.email = "" →
      (UpdateUserProfile hash oc userID data st).2.users.map (fun u => u.email)
        = st.users.map (fun u => u.email))
    ∧ (data.fullName = "" →
      (UpdateUserProfile hash oc userID data st).2.users.map (fun u => u.fullName)
        = st.users.map (fun u => u.fullName))
    ∧ (data.password = "" →
      (UpdateUserProfile hash oc userID data st).2.users.map (fun u => u.passwordHash)
        = st.users.map (fun u => u.passwordHash))
    ∧ (data.email = "" → data.password = "" →
      (UpdateUserProfile hash oc userID data st).1 = .ok () →
      (UpdateUserProfile hash oc userID data st).2
        = if data.fullName != "" then setUserFullName userID data.fullName st else st) := by
  refine ⟨?_, ?_, ?_, ?_⟩
  · intro hemail
    rcases UpdateUserProfile_result_cases hash oc userID data st with h | h
    · rw [h]
    · rw [h]
      exact profilePending_map_email hash userID data st hemail
  · intro hfn
    rcases UpdateUserProfile_result_cases hash oc userID data st with h | h
    · rw [h]
    · rw [h]
      exact profilePending_map_fullName hash userID data st hfn
  · intro hpass
    rcases UpdateUserProfile_result_cases hash oc userID data st with h | h
    · rw [h]
    · rw [h]
      exact profilePending_map_passwordHash hash userID data st hpass
  · intro hemail hpass hok
    rw [UpdateUserProfile_ok_state hash oc userID data st hok]
    have he : (data.email != "") = false := by simp [hemail]
    have hp : (data.password != "") = false := by simp [hpass]
    unfold profilePending
    simp [he, hp]

/-- A request with a new email and password but no full name. -/
def emailPwReq : UpdateProfileRequest :=
  { email := "new@x.com", fullName := "", password := "pw2" }

/-- Witness for C5: the scenario request changes only the full name, and a
request with non-empty email and password but empty full name leaves every
full name unchanged. -/
theorem UpdateUserProfile_frame_witness :
    (UpdateUserProfile idHash allOk 1 fullNameOnlyReq baseSt).2.users.map (fun u => u.email)
      = baseSt.users.map (fun u => u.email)
    ∧ ((UpdateUserProfile idHash allOk 1 fullNameOnlyReq baseSt).2
      = if fullNameOnlyReq.fullName != "" then
          setUserFullName 1 fullNameOnlyReq.fullName baseSt
        else baseSt)
    ∧ (UpdateUserProfile idHash allOk 1 emailPwReq baseSt).2.users.map (fun u => u.fullName)
      = baseSt.users.map (fun u => u.fullName) := by
  have h1 := UpdateUserProfile_frame idHash allOk 1 fullNameOnlyReq baseSt
  have h2 := UpdateUserProfile_frame idHash allOk 1 emailPwReq baseSt
  exact ⟨h1.1 rfl, h1.2.2.2 rfl rfl rfl, h2.2.1 rfl⟩

instance : IsTotal Task (fun a b => a.order ≤ b.order) :=
  ⟨fun a b => Int.le_total a.order b.order⟩

instance : IsTrans Task (fun a b => a.order ≤ b.order) :=
  ⟨fun _ _ _ hab hbc => le_trans hab hbc⟩

/-- C3: GetCourseByID returns ErrCourseNotFound exactly when no course row
has the requested id; on success the returned task list is a permutation
of the tasks owned by the course (exactly those rows, nothing else) and is
sorted ascending by the order field. -/
theorem GetCourseByID_spec (id : Nat) (st : DBState) :
    ((∀ c ∈ st.courses, c.id ≠ id) → GetCourseByID id st = .error .courseNotFound)
    ∧ (∀ co, GetCourseByID id st = .ok co →
      co.tasks.Perm (st.tasks.filter (fun t => t.courseId == id))
      ∧ co.tasks.Pairwise (fun a b => a.order ≤ b.order))
    ∧ ((∃ c ∈ st.courses, c.id = id) → ∃ co, GetCourseByID id st = .ok co) := by
  refine ⟨?_, ?_, ?_⟩
  · intro h
    have hf : st.courses.find? (fun c => c.id == id) = none := by
      rw [List.find?_eq_none]
      intro c hc
      simpa using h c hc
    simp [GetCourseByID, hf]
  · intro co hco
    unfold GetCourseByID at hco
    cases hfind : st.courses.find? (fun c => c.id == id) with
    | none => rw [hfind] at hco; cases hco
    | some row =>
      rw [hfind] at hco
      have hco' := Except.ok.inj hco
      constructor
      · rw [← hco']
        exact List.perm_insertionSort (fun a b => a.order ≤ b.order)
          (st.tasks.filter (fun t => t.courseId == id))
      · rw [← hco']
        exact List.sorted_insertionSort (fun a b => a.order ≤ b.order)
          (st.tasks.filter (fun t => t.courseId == id))
  · rintro ⟨c, hc, hcid⟩
    cases hfind : st.courses.find? (fun c => c.id == id) with
    | none =>
      rw [List.find?_eq_none] at hfind
      exact absurd (by simp [hcid]) (hfind c hc)
    | some row =>
      refine ⟨{ id := row.id, vulnerabilityType := row.vulnerabilityType,
                tasksCount := (st.tasks.filter (fun t => t.courseId == id)).length,
                description := row.description,
                tasks := List.insertionSort (fun a b => a.order ≤ b.order)
                  (st.tasks.filter (fun t => t.courseId == id)) }, ?_⟩
      unfold GetCourseByID
      rw [hfind]

/-- Witness for C3: course 99 is absent, course 3 exists and its tasks
come back sorted. -/
theorem GetCourseByID_spec_witness :
    GetCourseByID 99 baseSt = .error .courseNotFound
    ∧ ∃ co, GetCourseByID 3 baseSt = .ok co := by
  refine ⟨(GetCourseByID_spec 99 baseSt).1 (by decide), ?_⟩
  exact (GetCourseByID_spec 3 baseSt).2.2 ⟨course3, by decide, rfl⟩

/-- C1 (amended): with a well-formed users table, VerifyOTPCode returns
true exactly when the user's row stores the supplied code (non-NULL and
non-empty) and the current time is not after the stored expiry; it
returns an error exactly when the user's row exists but otp_code or
otp_expires_at is NULL, because scanning the NULL into the non-nullable
Go destinations fails; in every remaining case (no such user, empty
stored code, wrong code, expired challenge) it returns false without
error. -/
theorem VerifyOTPCode_characterization (now userID : Nat) (code : String)
    (st : DBState) (hwf : wfUsers st) :
    (VerifyOTPCode now userID code st = .ok true ↔
      ∃ u ∈ st.users, u.id = userID ∧ u.otpCode = some code ∧ code ≠ ""
        ∧ ∃ exp, u.otpExpiresAt = some exp ∧ now ≤ exp)
    ∧ ((∃ e, VerifyOTPCode now userID code st = .error e) ↔
      ∃ u ∈ st.users, u.id = userID ∧ (u.otpCode = none ∨ u.otpExpiresAt = none)) := by
  cases hfind : st.users.find? (fun x => x.id == userID) with
  | none =>
    have hno : ∀ u ∈ st.users, u.id ≠ userID := by
      have h2 := List.find?_eq_none.mp hfind
      intro u hu
      simpa using h2 u hu
    have hval : VerifyOTPCode now userID code st = .ok false := by
      simp [VerifyOTPCode, hfind]
    rw [hval]
    constructor
    · constructor
      · intro h
        simp at h
      · rintro ⟨u, hu, hid, _⟩
        exact absurd hid (hno u hu)
    · constructor
      · rintro ⟨e, he⟩
        simp at he
      · rintro ⟨u, hu, hid, _⟩
        exact absurd hid (hno u hu)
  | some u =>
    obtain ⟨humem, huid⟩ := (find?_id_unique st.users hwf userID u).mp hfind
    have huniq : ∀ u' ∈ st.users, u'.id = userID → u' = u := by
      intro u' hu' hid'
      have h2 := (find?_id_unique st.users hwf userID u').mpr ⟨hu', hid'⟩
      rw [hfind] at h2
      exact (Option.some.inj h2).symm
    cases hoc : u.otpCode with
    | none =>
      have hval : VerifyOTPCode now userID code st = .error .scanNull := by
        simp [VerifyOTPCode, hfind, hoc]
      rw [hval]
      constructor
      · constructor
        · intro h
          simp at h
        · rintro ⟨u', hu', hid', hcode', _⟩
          rw [huniq u' hu' hid'] at hcode'
          rw [hoc] at hcode'
          cases hcode'
      · constructor
        · intro _
          exact ⟨u, humem, huid, Or.inl hoc⟩
        · intro _
          exact ⟨.scanNull, rfl⟩
    | some sc =>
      cases hoe : u.otpExpiresAt with
      | none =>
        have hval : VerifyOTPCode now userID code st = .error .scanNull := by
          simp [VerifyOTPCode, hfind, hoc, hoe]
        rw [hval]
        constructor
        · constructor
          · intro h
            simp at h
          · rintro ⟨u', hu', hid', _, _, exp', hexp', _⟩
            rw [huniq u' hu' hid'] at hexp'
            rw [hoe] at hexp'
            cases hexp'
        · constructor
          · intro _
            exact ⟨u, humem, huid, Or.inr hoe⟩
          · intro _
            exact ⟨.scanNull, rfl⟩
      | some exp =>
        have hval : VerifyOTPCode now userID code st
            = if sc == "" then .ok false
              else if exp < now then .ok false
              else .ok (code == sc) := by
          simp [VerifyOTPCode, hfind, hoc, hoe]
        rw [hval]
        constructor
        · constructor
          · intro h
            by_cases hsc : (sc == "") = true
            · rw [if_pos hsc] at h
              simp at h
            · rw [if_neg hsc] at h
              by_cases hexp : (exp < now)
              · rw [if_pos hexp] at h
                simp at h
              · rw [if_neg hexp] at h
                have hcs : code = sc := by simpa using Except.ok.inj h
                refine ⟨u, humem, huid, by rw [hoc, hcs], ?_, exp, hoe, ?_⟩
                · rw [hcs]
                  simpa using hsc
                · omega
          · rintro ⟨u', hu', hid', hcode', hne', exp', hexp', hle'⟩
            have hu'u := huniq u' hu' hid'
            rw [hu'u, hoc] at hcode'
            rw [hu'u, hoe] at hexp'
            have hsceq : sc = code := Option.some.inj hcode'
            have hexpeq : exp = exp' := Option.some.inj hexp'
            have hsc : (sc == "") = false := by
              rw [hsceq]
              simpa using hne'
            have hexp : ¬ (exp < now) := by omega
            rw [if_neg (by simp [hsc]), if_neg hexp]
            simp [hsceq]
        · constructor
          · rintro ⟨e, he⟩
            by_cases hsc : (sc == "") = true
            · rw [if_pos hsc] at he
              simp at he
            · rw [if_neg hsc] at he
              by_cases hexp : (exp < now)
              · rw [if_pos hexp] at he
                simp at he
              · rw [if_neg hexp] at he
                simp at he
          · rintro ⟨u', hu', hid', hnull⟩
            have hu'u := huniq u' hu' hid'
            rcases hnull with hn | hn
            · rw [hu'u, hoc] at hn
              cases hn
            · rw [hu'u, hoe] at hn
              cases hn

/-- Witness for C1 (amended): alice's pending challenge verifies at
time 10 with the right code. -/
theorem VerifyOTPCode_characterization_witness :
    VerifyOTPCode 10 1 "123456" pendingSt = .ok true := by
  have h := (VerifyOTPCode_characterization 10 1 "123456" pendingSt (by decide)).1
  exact h.mpr ⟨alicePending, by decide, rfl, rfl, by decide, 300, rfl, by omega⟩

/-- C1 (counterexample): alice exists with no pending challenge (both OTP
columns NULL, as rows come out of CreateUser or ClearOTPCode); the claim
predicts (false, nil) for this no-challenge case, but the call returns a
scan error instead of false. -/
theorem VerifyOTPCode_no_challenge_counterexample :
    (∃ u ∈ baseSt.users, u.id = 1 ∧ u.otpCode = none ∧ u.otpExpiresAt = none)
    ∧ VerifyOTPCode 0 1 "123456" baseSt = .error .scanNull
    ∧ VerifyOTPCode 0 1 "123456" baseSt ≠ .ok false := by
  refine ⟨⟨aliceNoOtp, by decide, rfl, rfl, rfl⟩, rfl, ?_⟩
  intro h
  rw [show VerifyOTPCode 0 1 "123456" baseSt = Except.error Err.scanNull from rfl] at h
  exact Except.noConfusion h

end LMS
